import Mathlib

/-!
Shallow embedding of the EdgeScan frame lifecycle: surface management
(src/gpu.rs), the render pipeline and resize handling (src/framework.rs),
the frame scheduler and shutdown paths of the event loop (src/main.rs),
configuration normalization (src/config.rs), and the worker-dialog poll
(src/gui.rs). Machine integers (u32, nanosecond counts) are modelled as Nat;
the claims proved here never exercise u32 overflow. Floating-point scale
factors are carried as opaque bit patterns with the two conversions the code
performs passed in as uninterpreted functions, since no claim constrains
their numeric value.
-/

namespace EdgeScan

/-- The `wgpu::SurfaceError` variants (Timeout, Outdated, Lost, OutOfMemory). -/
inductive SurfaceError
  | Timeout
  | Outdated
  | Lost
  | OutOfMemory
deriving DecidableEq, Repr

/-- The `edgescan::gpu::Error` enum from src/gpu.rs. `DeviceNotFound` and
`CreateSurface` carry foreign error payloads that no claim inspects, so they
are modelled as bare constructors. -/
inductive GpuError
  | AdapterNotFound
  | DeviceNotFound
  | Surface (e : SurfaceError)
  | CreateSurface
deriving DecidableEq, Repr

/-- `winit::dpi::PhysicalSize<u32>`. -/
structure PhysicalSize where
  width : Nat
  height : Nat
deriving DecidableEq, Repr

/-- The fields of the `wgpu::SurfaceConfiguration` that vary in
`Gpu::reconfigure_surface` (width and height); format, usage, present mode and
alpha mode are fixed constants in the source and carry no information. -/
structure SurfaceConfig where
  width : Nat
  height : Nat
deriving DecidableEq, Repr

/-- The `Gpu` struct from src/gpu.rs. `device`, `queue`, `texture_format` and
`alpha_mode` are opaque handles the claims never read. `surface_config` is the
configuration most recently applied to the surface by
`Gpu::reconfigure_surface`, and `reconfigures` counts how many times
`reconfigure_surface` has run (the observable effect of `surface.configure`). -/
structure Gpu where
  window_size : PhysicalSize
  surface_config : SurfaceConfig
  reconfigures : Nat
deriving DecidableEq, Repr

/-- `Gpu::reconfigure_surface`: configures the surface from the stored
`window_size` (src/gpu.rs lines 73-86). -/
def Gpu.reconfigure_surface (g : Gpu) : Gpu :=
  { g with
    surface_config := { width := g.window_size.width, height := g.window_size.height }
    reconfigures := g.reconfigures + 1 }

/-- `Gpu::resize` (src/gpu.rs lines 88-91): store the new size, then
reconfigure the surface. -/
def Gpu.resize (g : Gpu) (window_size : PhysicalSize) : Gpu :=
  ({ g with window_size := window_size } : Gpu).reconfigure_surface

/-- One result of `surface.get_current_texture()`: a frame (identified by an
opaque id) or a `wgpu::SurfaceError`. Acquisition results are injected so the
retry policy can be stated over every possible sequence of outcomes. -/
abbrev AcquireResult := Except SurfaceError Nat

instance exceptDecEq {ε α : Type} [DecidableEq ε] [DecidableEq α] :
    DecidableEq (Except ε α) := fun
  | .ok a, .ok b => decidable_of_iff (a = b) (by simp)
  | .ok _, .error _ => isFalse (by simp)
  | .error _, .ok _ => isFalse (by simp)
  | .error e, .error f => decidable_of_iff (e = f) (by simp)

/-- The observable outcome of one `Gpu::prepare` call: how many acquisition
attempts were made, and the returned value (the frame id on success; the
encoder the source also returns carries no information). -/
structure PrepareTrace where
  acquires : Nat
  result : Except GpuError Nat
deriving DecidableEq, Repr

/-- `Gpu::prepare` (src/gpu.rs lines 93-114): acquire the surface texture;
on `SurfaceError::Outdated` reconfigure the surface and retry once, the
retry's result passing through the `?` operator (which wraps any
`SurfaceError` into `gpu::Error::Surface`); any other first error is returned
through `?` with no reconfigure and no retry. `first` and `retry` are the
results the surface would hand back on the first and second acquisition. -/
def Gpu.prepare (g : Gpu) (first retry : AcquireResult) : Gpu × PrepareTrace :=
  match first with
  | .ok frame => (g, { acquires := 1, result := .ok frame })
  | .error SurfaceError.Outdated =>
      (g.reconfigure_surface,
       { acquires := 2
         result := match retry with
           | .ok frame => .ok frame
           | .error e => .error (GpuError.Surface e) })
  | .error e => (g, { acquires := 1, result := .error (GpuError.Surface e) })

/-- `egui::TexturesDelta`: texture ids to upload before drawing (`set`, whose
image payloads no claim reads) and ids to free after drawing (`free`). -/
structure TexturesDelta where
  set : List Nat
  free : List Nat
deriving DecidableEq, Repr

/-- `TexturesDelta::default()`: both sets empty. -/
def TexturesDelta.default : TexturesDelta := { set := [], free := [] }

/-- An opaque f32 bit pattern (`pixels_per_point`); stored and compared, never
computed with, by the embedded code paths. -/
structure F32 where
  bits : Nat
deriving DecidableEq, Repr

/-- An opaque f64 bit pattern (a winit scale factor). -/
structure F64 where
  bits : Nat
deriving DecidableEq, Repr

/-- `egui_wgpu::renderer::ScreenDescriptor`. -/
structure ScreenDescriptor where
  size_in_pixels : Nat × Nat
  pixels_per_point : F32
deriving DecidableEq, Repr

/-- The `Framework` struct from src/framework.rs, restricted to the state the
embedded operations touch. `egui_ctx`, `egui_state`, `renderer` and `gui` are
opaque to the claims about resize and render; `config` is the persisted
window-size data (the `ConfigData` inside `Config`). `clipped_primitives`
holds opaque primitive ids drawn in list order. -/
structure Framework where
  gpu : Gpu
  screen_descriptor : ScreenDescriptor
  config_width : Nat
  config_height : Nat
  textures_delta : TexturesDelta
  clipped_primitives : List Nat
deriving DecidableEq, Repr

/-- `Framework::resize` (src/framework.rs lines 75-83). `scale_factor` is the
f64 the window reports; `as_f32` models the `scale_factor as f32` cast and
`logical_of` models `Config::set_window_size`'s
`(dim as f64 / scale_factor) as u32` (src/config.rs lines 67-70), both
uninterpreted since no claim constrains their values. -/
def Framework.resize (fw : Framework) (window_size : PhysicalSize) (scale_factor : F64)
    (as_f32 : F64 → F32) (logical_of : Nat → F64 → Nat) : Framework :=
  if window_size.width > 0 ∧ window_size.height > 0 then
    { fw with
      gpu := fw.gpu.resize window_size
      config_width := logical_of window_size.width scale_factor
      config_height := logical_of window_size.height scale_factor
      screen_descriptor :=
        { size_in_pixels := (window_size.width, window_size.height)
          pixels_per_point := as_f32 scale_factor } }
  else
    fw

/-- One observable GPU-facing step of `Framework::render`, recorded in the
order the source performs it: texture uploads (`renderer.update_texture`),
`renderer.update_buffers`, opening the render pass, the per-primitive draws
issued by `renderer.render`, closing the pass, texture frees
(`renderer.free_texture`), `queue.submit`, and `frame.present`. -/
inductive RenderOp
  | uploadTexture (id : Nat)
  | updateBuffers
  | beginPass
  | draw (prim : Nat)
  | endPass
  | freeTexture (id : Nat)
  | submit
  | present
deriving DecidableEq, Repr

/-- `Framework::render` (src/framework.rs lines 103-155). `Gpu::prepare` runs
first and any error exits through `?` (no further state change). On success
the body performs, in order: uploads of every entry of `textures_delta.set`,
`update_buffers`, the render pass drawing `clipped_primitives` in list order,
`std::mem::take(&mut self.textures_delta)` (leaving the default empty delta)
followed by a free of every id of the taken delta's `free` list, then submit
and present. The returned trace lists the GPU-facing steps in that order. -/
def Framework.render (fw : Framework) (first retry : AcquireResult) :
    Framework × Except GpuError (List RenderOp) :=
  let p := fw.gpu.prepare first retry
  match p.2.result with
  | .error e => ({ fw with gpu := p.1 }, .error e)
  | .ok _frame =>
      ({ fw with gpu := p.1, textures_delta := TexturesDelta.default },
       .ok (fw.textures_delta.set.map RenderOp.uploadTexture
            ++ [RenderOp.updateBuffers, RenderOp.beginPass]
            ++ fw.clipped_primitives.map RenderOp.draw
            ++ [RenderOp.endPass]
            ++ fw.textures_delta.free.map RenderOp.freeTexture
            ++ [RenderOp.submit, RenderOp.present]))

/-- The `winit::event_loop::ControlFlow` values the program uses. -/
inductive ControlFlow
  | Poll
  | Wait
  | Exit
deriving DecidableEq, Repr

/-- `maybe_redraw` (src/main.rs lines 123-130): returns the number of
`window.request_redraw()` calls made and the control flow stored. -/
def maybe_redraw (do_it : Bool) : Nat × ControlFlow :=
  if do_it then (1, ControlFlow.Poll) else (0, ControlFlow.Wait)

/-- The call site `maybe_redraw(control_flow, &window, repaint.is_zero())`
(src/main.rs lines 82-83 and 102): `repaint` is a `std::time::Duration`
modelled in nanoseconds, and `Duration::is_zero` is `repaint == 0`. -/
def redrawAfterPrepare (repaint : Nat) : Nat × ControlFlow :=
  maybe_redraw (repaint == 0)

/-- What one `Event::RedrawRequested` arm of the event loop does
(src/main.rs lines 95-103): how many times `error!` logged, the control flow
stored, and how many redraws were requested. -/
structure RedrawOutcome where
  logged : Bool
  flow : ControlFlow
  redrawRequests : Nat
deriving DecidableEq, Repr

/-- The `Event::RedrawRequested` arm (src/main.rs lines 95-103): run
`framework.render()`; on `Err` log the error, set `ControlFlow::Exit` and
return; on `Ok` fall through to `maybe_redraw(.., repaint.is_zero())`. -/
def handleRedrawRequested (fw : Framework) (first retry : AcquireResult)
    (repaint : Nat) : Framework × RedrawOutcome :=
  match fw.render first retry with
  | (fw', .error _e) =>
      (fw', { logged := true, flow := ControlFlow.Exit, redrawRequests := 0 })
  | (fw', .ok _ops) =>
      (fw',
       { logged := false
         flow := (redrawAfterPrepare repaint).2
         redrawRequests := (redrawAfterPrepare repaint).1 })

/-- The `edgescan::config::Error` enum from src/config.rs (payloads opaque). -/
inductive ConfigError
  | Dirs
  | Io
  | Serialize
deriving DecidableEq, Repr

/-- What the quit branch of the event loop does (src/main.rs lines 67-74):
whether `handle_error` ran (which both logs the error and shows a message
box to the user) and the control flow stored. -/
structure QuitOutcome where
  logged : Bool
  shown : Bool
  flow : ControlFlow
deriving DecidableEq, Repr

/-- The quit branch (src/main.rs lines 67-74): `framework.config().save()`,
on `Err` call `handle_error` (log + message box, src/main.rs lines 132-140),
then unconditionally set `ControlFlow::Exit` and return. -/
def handleQuit (saveResult : Except ConfigError Unit) : QuitOutcome :=
  match saveResult with
  | .ok _ => { logged := false, shown := false, flow := ControlFlow.Exit }
  | .error _ => { logged := true, shown := true, flow := ControlFlow.Exit }

/-- The nanosecond value of `Duration::from_secs_f64(1.0 / 60.0)`
(src/main.rs line 109): the f64 nearest 1/60 is 16666666.666666666435... ns,
and `from_secs_f64` rounds to the nearest nanosecond, giving 16666667 ns —
the code's fixed frame budget. -/
def frameBudgetNs : Nat := 16666667

/-- The `Event::RedrawEventsCleared` arm (src/main.rs lines 104-116): under
`cfg(target_os = "macos")` only, compare the elapsed time since the previous
checkpoint with the frame budget and `thread::sleep(target - actual)` when
`target > actual`. Returns the nanoseconds slept (0 = no blocking). On every
other platform the entire block is compiled out. -/
def redrawEventsClearedSleep (macos : Bool) (elapsedNs : Nat) : Nat :=
  if macos then
    if frameBudgetNs > elapsedNs then frameBudgetNs - elapsedNs else 0
  else
    0

/-- The persisted `ConfigData` struct from src/config.rs. -/
structure ConfigData where
  window_width : Nat
  window_height : Nat
deriving DecidableEq, Repr

/-- `ConfigData::default()` (src/config.rs lines 73-80). -/
def ConfigData.default : ConfigData := { window_width := 1200, window_height := 800 }

/-- Rust's `u32::clamp(min, max)`: below `lo` gives `lo`, above `hi` gives
`hi`, otherwise the value itself. -/
def rustClamp (x lo hi : Nat) : Nat :=
  if x < lo then lo else if x > hi then hi else x

/-- `ConfigData::normalize` (src/config.rs lines 82-88): clamp both window
dimensions into [400, 10000]. -/
def ConfigData.normalize (c : ConfigData) : ConfigData :=
  { window_width := rustClamp c.window_width 400 10000
    window_height := rustClamp c.window_height 400 10000 }

/-- The possible outcomes of reading and parsing the config file in
`Config::new`: `read_to_string` failed (missing/unreadable file),
`ron::from_str` failed (unparseable contents, `unwrap_or_default`), or a
successfully parsed `ConfigData` with arbitrary u32 fields. -/
inductive ConfigFile
  | missing
  | unparseable
  | parsed (data : ConfigData)

/-- `Config::new` (src/config.rs lines 30-46) restricted to its data: take
the parsed contents or the default, then normalize. (The `ProjectDirs`
lookup can also fail with `Error::Dirs`, in which case no `Config` exists at
all; the claim about the returned configuration concerns the `Ok` case.) -/
def Config.new (file : ConfigFile) : ConfigData :=
  let data := match file with
    | ConfigFile.missing => ConfigData.default
    | ConfigFile.unparseable => ConfigData.default
    | ConfigFile.parsed d => d
  data.normalize

/-- `Config::get_window_size` (src/config.rs lines 63-65). -/
def Config.get_window_size (c : ConfigData) : Nat × Nat :=
  (c.window_width, c.window_height)

/-- Rust's `Option::or`: the first option if it is `Some`, else the second. -/
def rustOr {α : Type} : Option α → Option α → Option α
  | some v, _ => some v
  | none, b => b

/-- The `Gui` struct from src/gui.rs, restricted to the dialog-poll state.
`M` stands for the trace model type (`SignalDB`). `file_dialog` models the
`JoinHandle`: `none` when no worker is outstanding, otherwise the pair of
`is_finished()` and the value `join()` will produce — `Except.error` for a
panicked thread, `Except.ok v` for a thread that ran to completion returning
`v : Option M` (`none` on cancelled dialog, unreadable file, or parse
failure). -/
structure Gui (M : Type) where
  enabled : Bool
  about_open : Bool
  vcd : Option M
  file_dialog : Option (Bool × Except Unit (Option M))

/-- The dialog-poll step at the top of `Gui::ui` (src/gui.rs lines 27-34):
if a worker handle exists and is finished, take the handle and join it; when
the join is `Ok(vcd)` set `self.vcd = vcd.or(self.vcd.take())`; either way
re-enable the UI. An unfinished or absent handle changes nothing. -/
def Gui.pollDialog {M : Type} (g : Gui M) : Gui M :=
  match g.file_dialog with
  | none => g
  | some (finished, joinResult) =>
    if finished then
      match joinResult with
      | .ok vcd => { g with vcd := rustOr vcd g.vcd, file_dialog := none, enabled := true }
      | .error _ => { g with file_dialog := none, enabled := true }
    else
      g

/-- Scanner for the ordering claim as the spec states it: every
`freeTexture` op in the trace occurs after a `submit` op. -/
def freesOnlyAfterSubmitAux (seenSub : Bool) : List RenderOp → Bool
  | [] => true
  | op :: rest =>
    match op with
    | RenderOp.freeTexture _ => seenSub && freesOnlyAfterSubmitAux seenSub rest
    | RenderOp.submit => freesOnlyAfterSubmitAux true rest
    | _ => freesOnlyAfterSubmitAux seenSub rest

/-- Every `freeTexture` op in the trace occurs after a `submit` op. -/
def freesOnlyAfterSubmit (ops : List RenderOp) : Bool :=
  freesOnlyAfterSubmitAux false ops

/-- Scanner: every `freeTexture` op occurs after the pass is closed
(`endPass` seen) and before `submit`. -/
def freesBetweenAux (seenEnd seenSub : Bool) : List RenderOp → Bool
  | [] => true
  | op :: rest =>
    match op with
    | RenderOp.freeTexture _ => seenEnd && !seenSub && freesBetweenAux seenEnd seenSub rest
    | RenderOp.endPass => freesBetweenAux true seenSub rest
    | RenderOp.submit => freesBetweenAux seenEnd true rest
    | _ => freesBetweenAux seenEnd seenSub rest

/-- Every `freeTexture` op in the trace occurs after the render pass is
closed (draw commands encoded) and before the `submit`. -/
def freesAfterEncodeBeforeSubmit (ops : List RenderOp) : Bool :=
  freesBetweenAux false false ops

/-- Whether a trace op touches the texture store (upload or free). -/
def isTextureOp : RenderOp → Bool
  | RenderOp.uploadTexture _ => true
  | RenderOp.freeTexture _ => true
  | _ => false

/-- A concrete `Gpu` value for closed instantiations. -/
def sampleGpu : Gpu :=
  { window_size := ⟨640, 480⟩, surface_config := ⟨640, 480⟩, reconfigures := 0 }

/-- A concrete `Framework` value with an empty texture delta. -/
def sampleFramework : Framework :=
  { gpu := sampleGpu
    screen_descriptor := { size_in_pixels := (640, 480), pixels_per_point := ⟨0⟩ }
    config_width := 640
    config_height := 480
    textures_delta := TexturesDelta.default
    clipped_primitives := [] }

/-- A concrete `Framework` whose draw batch schedules texture id 7 for
freeing. -/
def sampleFrameworkFree : Framework :=
  { sampleFramework with textures_delta := { set := [], free := [7] } }

/-! Helper lemmas shared by the claim proofs. -/

theorem rustClamp_window_bounds (x : Nat) :
    400 ≤ rustClamp x 400 10000 ∧ rustClamp x 400 10000 ≤ 10000 := by
  unfold rustClamp
  split_ifs <;> omega

/-! Claim theorems. -/

/-- C2: in `Gpu::prepare`, a first acquisition failing with `Outdated`
causes exactly one reconfigure and exactly one retry whose result (success
or any failure) is what `prepare` returns; a first failure with any other
error is propagated with no reconfigure and no retry. -/
theorem prepare_outdated_retry (g : Gpu) (first retry : AcquireResult) :
    (first = .error SurfaceError.Outdated →
      (g.prepare first retry).1 = g.reconfigure_surface ∧
      (g.prepare first retry).1.reconfigures = g.reconfigures + 1 ∧
      (g.prepare first retry).2.acquires = 2 ∧
      (∀ f, retry = .ok f → (g.prepare first retry).2.result = .ok f) ∧
      (∀ e, retry = .error e →
        (g.prepare first retry).2.result = .error (GpuError.Surface e))) ∧
    (∀ e, e ≠ SurfaceError.Outdated → first = .error e →
      (g.prepare first retry).1 = g ∧
      (g.prepare first retry).2.acquires = 1 ∧
      (g.prepare first retry).2.result = .error (GpuError.Surface e)) := by
  constructor
  · intro h
    subst h
    refine ⟨rfl, rfl, rfl, ?_, ?_⟩
    · intro f hf
      subst hf
      rfl
    · intro e he
      subst he
      rfl
  · intro e he h
    subst h
    cases e with
    | Timeout => exact ⟨rfl, rfl, rfl⟩
    | Outdated => exact absurd rfl he
    | Lost => exact ⟨rfl, rfl, rfl⟩
    | OutOfMemory => exact ⟨rfl, rfl, rfl⟩

/-- Witness for C2 at concrete inputs: an `Outdated` first failure followed
by a successful retry returns that frame after one reconfigure, and a `Lost`
first failure is propagated without reconfiguring. -/
theorem prepare_outdated_retry_witness :
    ((sampleGpu.prepare (.error SurfaceError.Outdated) (.ok 5)).2.result = .ok 5 ∧
      (sampleGpu.prepare (.error SurfaceError.Outdated) (.ok 5)).1.reconfigures =
        sampleGpu.reconfigures + 1) ∧
    (sampleGpu.prepare (.error SurfaceError.Lost) (.ok 5)).2.result =
      .error (GpuError.Surface SurfaceError.Lost) :=
  ⟨⟨((prepare_outdated_retry sampleGpu (.error SurfaceError.Outdated) (.ok 5)).1
        rfl).2.2.2.1 5 rfl,
    ((prepare_outdated_retry sampleGpu (.error SurfaceError.Outdated) (.ok 5)).1
        rfl).2.1⟩,
   ((prepare_outdated_retry sampleGpu (.error SurfaceError.Lost) (.ok 5)).2
        SurfaceError.Lost (by decide) rfl).2.2⟩

/-- C4: a zero `RepaintRequest` sets `ControlFlow::Poll` and requests exactly
one immediate redraw; a strictly positive one sets `ControlFlow::Wait` and
requests no redraw. -/
theorem repaint_zero_polls (repaint : Nat) :
    (repaint = 0 → redrawAfterPrepare repaint = (1, ControlFlow.Poll)) ∧
    (0 < repaint → redrawAfterPrepare repaint = (0, ControlFlow.Wait)) := by
  constructor
  · intro h
    subst h
    rfl
  · intro h
    have hb : (repaint == 0) = false := by
      simp only [beq_eq_false_iff_ne, ne_eq]
      omega
    simp [redrawAfterPrepare, maybe_redraw, hb]

/-- Witness for C4 at the concrete requests 0 and 1. -/
theorem repaint_zero_polls_witness :
    redrawAfterPrepare 0 = (1, ControlFlow.Poll) ∧
    redrawAfterPrepare 1 = (0, ControlFlow.Wait) :=
  ⟨(repaint_zero_polls 0).1 rfl, (repaint_zero_polls 1).2 (by decide)⟩

/-- C8: on shutdown, a failing configuration save is logged and shown to the
user, a successful one is not, and in both cases the control flow is set to
`Exit`, so the event loop exits regardless of the save result. -/
theorem quit_save_nonfatal (e : ConfigError) :
    handleQuit (.ok ()) =
      { logged := false, shown := false, flow := ControlFlow.Exit } ∧
    handleQuit (.error e) =
      { logged := true, shown := true, flow := ControlFlow.Exit } :=
  ⟨rfl, rfl⟩

/-- C9: whatever the config file held (missing, unparseable, or arbitrary
u32 values), `Config::new` clamps both window dimensions into [400, 10000],
and `get_window_size` returns exactly those clamped fields. -/
theorem config_new_clamps_window_size (file : ConfigFile) :
    400 ≤ (Config.new file).window_width ∧
    (Config.new file).window_width ≤ 10000 ∧
    400 ≤ (Config.new file).window_height ∧
    (Config.new file).window_height ≤ 10000 ∧
    Config.get_window_size (Config.new file) =
      ((Config.new file).window_width, (Config.new file).window_height) := by
  cases file <;>
    refine ⟨?_, ?_, ?_, ?_, rfl⟩ <;>
    simp only [Config.new, ConfigData.normalize, ConfigData.default] <;>
    first
      | exact (rustClamp_window_bounds _).1
      | exact (rustClamp_window_bounds _).2

/-- C6: when the finished worker's join yields no trace model (`Ok(None)`,
covering parse failure, cancelled dialog, and unreadable file) the previous
model is preserved; a successful join (`Ok(Some(m))`) replaces it; a
panicked worker (`Err`) also preserves it. -/
theorem dialog_join_preserves_model {M : Type} (enabled about : Bool)
    (old : Option M) (m : M) :
    (Gui.pollDialog ⟨enabled, about, old, some (true, .ok none)⟩).vcd = old ∧
    (Gui.pollDialog ⟨enabled, about, old, some (true, .ok (some m))⟩).vcd = some m ∧
    (Gui.pollDialog ⟨enabled, about, old, some (true, .error ())⟩).vcd = old :=
  ⟨rfl, rfl, rfl⟩

/-- C7: at the `RedrawEventsCleared` checkpoint, the macOS-only compensation
sleeps exactly the frame budget minus the elapsed time when less than the
budget has elapsed, does not block once the budget has elapsed, and is
absent (never blocks) on any other platform. The budget is the code's
`Duration::from_secs_f64(1.0 / 60.0)`, i.e. 1/60 second at nanosecond
resolution. -/
theorem macos_frame_budget_sleep (macos : Bool) (elapsedNs : Nat) :
    (macos = true → elapsedNs < frameBudgetNs →
      redrawEventsClearedSleep macos elapsedNs = frameBudgetNs - elapsedNs) ∧
    (macos = true → frameBudgetNs ≤ elapsedNs →
      redrawEventsClearedSleep macos elapsedNs = 0) ∧
    (macos = false → redrawEventsClearedSleep macos elapsedNs = 0) := by
  refine ⟨?_, ?_, ?_⟩
  · intro hm hlt
    subst hm
    simp only [redrawEventsClearedSleep, if_true]
    rw [if_pos hlt]
  · intro hm hge
    subst hm
    simp only [redrawEventsClearedSleep, if_true]
    rw [if_neg (by omega)]
  · intro hm
    subst hm
    rfl

/-- Witness for C7: 10 ms elapsed sleeps the 6666667 ns remainder, 20 ms
elapsed does not block, and off macOS nothing blocks. -/
theorem macos_frame_budget_sleep_witness :
    redrawEventsClearedSleep true 10000000 = 6666667 ∧
    redrawEventsClearedSleep true 20000000 = 0 ∧
    redrawEventsClearedSleep false 10000000 = 0 :=
  ⟨(macos_frame_budget_sleep true 10000000).1 rfl (by decide),
   (macos_frame_budget_sleep true 20000000).2.1 rfl (by decide),
   (macos_frame_budget_sleep false 10000000).2.2 rfl⟩

theorem render_ok_shape (fw : Framework) (first retry : AcquireResult)
    (ops : List RenderOp) (h : (fw.render first retry).2 = .ok ops) :
    (fw.render first retry).1 =
      { fw with gpu := (fw.gpu.prepare first retry).1
                textures_delta := TexturesDelta.default } ∧
    ops = fw.textures_delta.set.map RenderOp.uploadTexture
          ++ [RenderOp.updateBuffers, RenderOp.beginPass]
          ++ fw.clipped_primitives.map RenderOp.draw
          ++ [RenderOp.endPass]
          ++ fw.textures_delta.free.map RenderOp.freeTexture
          ++ [RenderOp.submit, RenderOp.present] := by
  simp only [Framework.render] at h ⊢
  rcases hres : (fw.gpu.prepare first retry).2.result with e | f
  · rw [hres] at h
    simp at h
  · rw [hres] at h
    simp at h
    refine ⟨rfl, ?_⟩
    simp only [List.append_assoc, List.cons_append, List.nil_append]
    exact h.symm

theorem freesBetweenAux_uploads (ids : List Nat) (s1 s2 : Bool)
    (rest : List RenderOp) :
    freesBetweenAux s1 s2 (ids.map RenderOp.uploadTexture ++ rest) =
      freesBetweenAux s1 s2 rest := by
  induction ids with
  | nil => rfl
  | cons i is ih => exact ih

theorem freesBetweenAux_draws (ids : List Nat) (s1 s2 : Bool)
    (rest : List RenderOp) :
    freesBetweenAux s1 s2 (ids.map RenderOp.draw ++ rest) =
      freesBetweenAux s1 s2 rest := by
  induction ids with
  | nil => rfl
  | cons i is ih => exact ih

theorem freesBetweenAux_frees (ids : List Nat) (rest : List RenderOp) :
    freesBetweenAux true false (ids.map RenderOp.freeTexture ++ rest) =
      freesBetweenAux true false rest := by
  induction ids with
  | nil => rfl
  | cons i is ih =>
    simp only [List.map_cons, List.cons_append, freesBetweenAux, Bool.true_and,
      Bool.not_false, Bool.and_true]
    exact ih

theorem freesAfterEncodeBeforeSubmit_shape (ups draws frees : List Nat) :
    freesAfterEncodeBeforeSubmit
      (ups.map RenderOp.uploadTexture
        ++ [RenderOp.updateBuffers, RenderOp.beginPass]
        ++ draws.map RenderOp.draw
        ++ [RenderOp.endPass]
        ++ frees.map RenderOp.freeTexture
        ++ [RenderOp.submit, RenderOp.present]) = true := by
  unfold freesAfterEncodeBeforeSubmit
  simp only [List.append_assoc]
  rw [freesBetweenAux_uploads]
  show freesBetweenAux false false
      (draws.map RenderOp.draw
        ++ ([RenderOp.endPass]
          ++ (frees.map RenderOp.freeTexture
            ++ [RenderOp.submit, RenderOp.present]))) = true
  rw [freesBetweenAux_draws]
  show freesBetweenAux true false
      (frees.map RenderOp.freeTexture
        ++ [RenderOp.submit, RenderOp.present]) = true
  rw [freesBetweenAux_frees]
  rfl

/-- C3 counterexample to the claim as stated: a successful render of a batch
that schedules texture id 7 for freeing encodes the free before the queue
submit, so "freed only after the draw commands have been submitted, never
before the submit" fails at this input. -/
theorem render_free_before_submit_counterexample :
    (sampleFrameworkFree.render (.ok 0) (.ok 0)).2 =
      .ok [RenderOp.updateBuffers, RenderOp.beginPass, RenderOp.endPass,
           RenderOp.freeTexture 7, RenderOp.submit, RenderOp.present] ∧
    freesOnlyAfterSubmit
      [RenderOp.updateBuffers, RenderOp.beginPass, RenderOp.endPass,
       RenderOp.freeTexture 7, RenderOp.submit, RenderOp.present] = false :=
  ⟨rfl, rfl⟩

/-- C3 amended: in every successful `Framework::render`, every texture id in
the batch's to-free set is freed only after the batch's draw commands have
been encoded (the render pass is closed) and before the commands are
submitted to the GPU queue. -/
theorem render_frees_after_encode_before_submit (fw : Framework)
    (first retry : AcquireResult) (ops : List RenderOp)
    (h : (fw.render first retry).2 = .ok ops) :
    freesAfterEncodeBeforeSubmit ops = true := by
  obtain ⟨-, hops⟩ := render_ok_shape fw first retry ops h
  rw [hops]
  exact freesAfterEncodeBeforeSubmit_shape _ _ _

/-- Witness for C3's amended theorem at a concrete successful render. -/
theorem render_frees_after_encode_before_submit_witness :
    freesAfterEncodeBeforeSubmit
      [RenderOp.updateBuffers, RenderOp.beginPass, RenderOp.endPass,
       RenderOp.freeTexture 7, RenderOp.submit, RenderOp.present] = true :=
  render_frees_after_encode_before_submit sampleFrameworkFree (.ok 0) (.ok 0) _ rfl

/-- C10: a successful `Framework::render` leaves both sets of the pending
texture delta empty, and a second render before the next UI pass therefore
performs no texture upload and no texture free. -/
theorem render_clears_textures_delta (fw : Framework) (f1 r1 f2 r2 : AcquireResult)
    (ops : List RenderOp) (h : (fw.render f1 r1).2 = .ok ops) :
    (fw.render f1 r1).1.textures_delta = TexturesDelta.default ∧
    ∀ ops2, ((fw.render f1 r1).1.render f2 r2).2 = .ok ops2 →
      ops2.all (fun op => !isTextureOp op) = true := by
  obtain ⟨hfw, -⟩ := render_ok_shape fw f1 r1 ops h
  constructor
  · rw [hfw]
  · intro ops2 h2
    obtain ⟨-, hops2⟩ := render_ok_shape _ f2 r2 ops2 h2
    rw [hfw] at hops2
    rw [hops2]
    simp [TexturesDelta.default, isTextureOp]

/-- Witness for C10 at a concrete pair of renders: the first render empties
the delta and the second render's trace contains no texture ops. -/
theorem render_clears_textures_delta_witness :
    (sampleFrameworkFree.render (.ok 0) (.ok 0)).1.textures_delta =
      TexturesDelta.default ∧
    ((sampleFrameworkFree.render (.ok 0) (.ok 0)).1.render (.ok 1) (.ok 1)).2 =
      .ok [RenderOp.updateBuffers, RenderOp.beginPass, RenderOp.endPass,
           RenderOp.submit, RenderOp.present] ∧
    ([RenderOp.updateBuffers, RenderOp.beginPass, RenderOp.endPass,
      RenderOp.submit, RenderOp.present] : List RenderOp).all
        (fun op => !isTextureOp op) = true :=
  ⟨(render_clears_textures_delta sampleFrameworkFree (.ok 0) (.ok 0) (.ok 1) (.ok 1)
      _ rfl).1,
   rfl,
   (render_clears_textures_delta sampleFrameworkFree (.ok 0) (.ok 0) (.ok 1) (.ok 1)
      _ rfl).2 _ rfl⟩

/-- C1 counterexample to the claim as stated: at a concrete render failure
(`SurfaceError::Lost`) the `RedrawRequested` arm stores `ControlFlow::Exit`,
so the event loop does not continue on the next event. -/
theorem render_error_continues_counterexample :
    (sampleFramework.render (.error SurfaceError.Lost) (.ok 0)).2 =
      .error (GpuError.Surface SurfaceError.Lost) ∧
    (handleRedrawRequested sampleFramework (.error SurfaceError.Lost) (.ok 0) 0).2.flow =
      ControlFlow.Exit :=
  ⟨rfl, rfl⟩

/-- C1 amended: when `Framework::render` fails (any surface error other than
the recovered outdated case), the failure is logged, no redraw is requested,
and the control flow is set to `Exit` — the error ends the event loop for the
whole application rather than abandoning only that frame's redraw. -/
theorem render_error_logged_and_exits (fw : Framework) (first retry : AcquireResult)
    (repaint : Nat) (e : GpuError)
    (h : (fw.render first retry).2 = .error e) :
    (handleRedrawRequested fw first retry repaint).2 =
      { logged := true, flow := ControlFlow.Exit, redrawRequests := 0 } := by
  unfold handleRedrawRequested
  rcases hr : fw.render first retry with ⟨fw', res⟩
  rw [hr] at h
  cases res with
  | error e' => rfl
  | ok ops => simp at h

/-- Witness for C1's amended theorem at a concrete `Lost` failure. -/
theorem render_error_logged_and_exits_witness :
    (handleRedrawRequested sampleFramework (.error SurfaceError.Lost) (.ok 0) 0).2 =
      { logged := true, flow := ControlFlow.Exit, redrawRequests := 0 } :=
  render_error_logged_and_exits sampleFramework (.error SurfaceError.Lost) (.ok 0) 0
    (GpuError.Surface SurfaceError.Lost) rfl

/-- C5: `Framework::resize` with either dimension zero changes nothing (the
stored surface size, the `ScreenDescriptor`, and the persisted window-size
configuration are all left as they were); with both dimensions non-zero the
new size is stored and the surface is reconfigured synchronously. -/
theorem resize_zero_noop_nonzero_stores (fw : Framework) (size : PhysicalSize)
    (sf : F64) (as_f32 : F64 → F32) (logical_of : Nat → F64 → Nat) :
    ((size.width = 0 ∨ size.height = 0) →
      fw.resize size sf as_f32 logical_of = fw) ∧
    (0 < size.width → 0 < size.height →
      (fw.resize size sf as_f32 logical_of).gpu.window_size = size ∧
      (fw.resize size sf as_f32 logical_of).gpu.surface_config =
        { width := size.width, height := size.height } ∧
      (fw.resize size sf as_f32 logical_of).gpu.reconfigures =
        fw.gpu.reconfigures + 1 ∧
      (fw.resize size sf as_f32 logical_of).screen_descriptor.size_in_pixels =
        (size.width, size.height)) := by
  constructor
  · intro h
    unfold Framework.resize
    rcases h with h | h <;> rw [if_neg (by omega)]
  · intro hw hh
    unfold Framework.resize
    rw [if_pos ⟨hw, hh⟩]
    exact ⟨rfl, rfl, rfl, rfl⟩

/-- Witness for C5: a 0x600 resize is the identity on a concrete framework,
and an 800x600 resize stores the size and reconfigures once. -/
theorem resize_zero_noop_nonzero_stores_witness :
    Framework.resize sampleFramework ⟨0, 600⟩ ⟨0⟩ (fun _ => ⟨0⟩) (fun n _ => n) =
      sampleFramework ∧
    (Framework.resize sampleFramework ⟨800, 600⟩ ⟨0⟩ (fun _ => ⟨0⟩)
        (fun n _ => n)).gpu.window_size = ⟨800, 600⟩ ∧
    (Framework.resize sampleFramework ⟨800, 600⟩ ⟨0⟩ (fun _ => ⟨0⟩)
        (fun n _ => n)).gpu.reconfigures = sampleFramework.gpu.reconfigures + 1 :=
  ⟨(resize_zero_noop_nonzero_stores sampleFramework ⟨0, 600⟩ ⟨0⟩ (fun _ => ⟨0⟩)
      (fun n _ => n)).1 (Or.inl rfl),
   ((resize_zero_noop_nonzero_stores sampleFramework ⟨800, 600⟩ ⟨0⟩ (fun _ => ⟨0⟩)
      (fun n _ => n)).2 (by decide) (by decide)).1,
   ((resize_zero_noop_nonzero_stores sampleFramework ⟨800, 600⟩ ⟨0⟩ (fun _ => ⟨0⟩)
      (fun n _ => n)).2 (by decide) (by decide)).2.2.1⟩

end EdgeScan
